import Mathlib

/-!
Shallow embedding of `src/normalize-options.ts` from the npm-publish
repository: the options-normalization layer that validates user-supplied
publish options against package-manifest defaults, producing a
`NormalizedOptions` record or throwing a typed error.

JavaScript runtime values that flow through the untyped (`unknown`) option
fields are modelled by the inductive `JSValue`; throwing validators become
functions into `Except NpmError`.
-/

namespace NpmPublish

/-- Model of the JavaScript runtime values that can appear in the untyped
(`unknown`) option fields: `undefined`, `null`, booleans, strings and
(integer) numbers. -/
inductive JSValue where
  | undefined
  | null
  | boolean (b : Bool)
  | string (s : String)
  | number (n : Int)
deriving Repr, DecidableEq

/-- JavaScript truthiness coercion, `Boolean(v)`: `undefined`, `null`,
`false`, the empty string and `0` are falsy; everything else is truthy. -/
def toBoolean : JSValue → Bool
  | .undefined => false
  | .null => false
  | .boolean b => b
  | .string s => s ≠ ""
  | .number n => n ≠ 0

/-- JavaScript nullish coalescing `a ?? b`: yields `b` when `a` is
`undefined` or `null`, otherwise `a`. -/
def nullish (a b : JSValue) : JSValue :=
  match a with
  | .undefined => b
  | .null => b
  | _ => a

/-- JavaScript loose equality with `undefined` (`v == undefined`): true
exactly for `undefined` and `null`. -/
def looseEqUndefined (v : JSValue) : Bool :=
  match v with
  | .undefined => true
  | .null => true
  | _ => false

/-- The whitespace code points removed by JavaScript `String.prototype.trim`
(ECMAScript WhiteSpace and LineTerminator productions). -/
def jsWhitespaceChar (c : Char) : Bool :=
  c.toNat ∈ [9, 10, 11, 12, 13, 32, 160, 0x1680, 0x2000, 0x2001, 0x2002,
    0x2003, 0x2004, 0x2005, 0x2006, 0x2007, 0x2008, 0x2009, 0x200A, 0x2028,
    0x2029, 0x202F, 0x205F, 0x3000, 0xFEFF]

/-- JavaScript `value.trim()`: strip leading and trailing whitespace. -/
def jsTrim (s : String) : String :=
  ⟨((s.toList.dropWhile jsWhitespaceChar).reverse.dropWhile
      jsWhitespaceChar).reverse⟩

/-- Uppercase hexadecimal digit for `n < 16`, as used by percent-encoding. -/
def hexDigit (n : Nat) : Char :=
  if n < 10 then Char.ofNat (48 + n) else Char.ofNat (55 + n)

/-- UTF-8 byte sequence of a code point (surrogates cannot occur in `Char`). -/
def utf8Bytes (c : Char) : List Nat :=
  let v := c.toNat
  if v < 0x80 then [v]
  else if v < 0x800 then [0xC0 + v / 64, 0x80 + v % 64]
  else if v < 0x10000 then
    [0xE0 + v / 4096, 0x80 + v / 64 % 64, 0x80 + v % 64]
  else
    [0xF0 + v / 262144, 0x80 + v / 4096 % 64, 0x80 + v / 64 % 64,
      0x80 + v % 64]

/-- The characters `encodeURIComponent` leaves unescaped:
`A–Z a–z 0–9 - _ . ! ~ * ' ( )`. -/
def uriUnreserved (c : Char) : Bool :=
  c.isAlphanum || c ∈ ['-', '_', '.', '!', '~', '*'] || c.toNat = 39 ||
    c ∈ ['(', ')']

/-- Percent-encoding of one escaped character: `%XX` per UTF-8 byte. -/
def percentEncodeChar (c : Char) : List Char :=
  (utf8Bytes c).foldr
    (fun b acc => '%' :: hexDigit (b / 16) :: hexDigit (b % 16) :: acc) []

/-- JavaScript `encodeURIComponent(s)`: unreserved characters map to
themselves; every other character becomes the `%XX` escapes of its UTF-8
bytes. -/
def encodeURIComponent (s : String) : String :=
  ⟨(s.toList.map fun c =>
      if uriUnreserved c then [c] else percentEncodeChar c).flatten⟩

/-- The typed errors of `src/errors.ts` that `normalize-options.ts` throws,
each carrying the offending raw value where the source does. -/
inductive NpmError where
  | invalidToken
  | invalidRegistryUrl (value : JSValue)
  | invalidTag (value : JSValue)
  | invalidAccess (value : JSValue)
  | invalidStrategy (value : JSValue)
deriving Repr, DecidableEq

/-- `ACCESS_PUBLIC` from `options.js` (the spec's `Access ∈ {public,
restricted}`). -/
def ACCESS_PUBLIC : String := "public"

/-- `ACCESS_RESTRICTED` from `options.js`. -/
def ACCESS_RESTRICTED : String := "restricted"

/-- `STRATEGY_ALL` from `options.js` (the spec's `Strategy ∈ {all,
upgrade}`). -/
def STRATEGY_ALL : String := "all"

/-- `STRATEGY_UPGRADE` from `options.js`. -/
def STRATEGY_UPGRADE : String := "upgrade"

/-- `REGISTRY_NPM`, the hard-coded npm registry fallback. -/
def REGISTRY_NPM : String := "https://registry.npmjs.org/"

/-- `TAG_LATEST`, the hard-coded dist-tag fallback. -/
def TAG_LATEST : String := "latest"

/-- Modelled from the spec: the platform WHATWG `URL` object produced by the
`new URL(...)` constructor (a Node builtin, not part of this repository).
Only the original href is retained. -/
structure URLModel where
  href : String
deriving Repr, DecidableEq

/-- A character allowed in a URI scheme after the first: letters, digits,
`+`, `-`, `.`. -/
def schemeChar (c : Char) : Bool :=
  c.isAlphanum || c = '+' || c = '-' || c = '.'

/-- Modelled from the spec: the platform `new URL(value)` parse used by the
registry validator — "valid iff it parses as an absolute URL". Absolute
means the string begins with a URI scheme (a letter followed by letters,
digits, `+`, `-` or `.`) and a colon. -/
def parseAbsoluteURL (s : String) : Option URLModel :=
  let cs := s.toList
  let scheme := cs.takeWhile (· ≠ ':')
  if scheme.length < cs.length ∧ scheme ≠ [] ∧
      (scheme.headD ' ').isAlpha ∧ scheme.all schemeChar then
    some ⟨s⟩
  else
    none

/-- `validateToken`: a token is valid iff it is a non-empty string, returned
unchanged; otherwise `InvalidTokenError` (which carries no value). -/
def validateToken (value : JSValue) : Except NpmError String :=
  match value with
  | .string s => if s.length > 0 then .ok s else .error .invalidToken
  | _ => .error .invalidToken

/-- `validateRegistry`: `new URL(value)`, wrapping a parse failure in
`InvalidRegistryUrlError` carrying the raw value. Non-string values are
string-coerced by the platform constructor and never parse (no `URL`
objects occur among the modelled `JSValue`s). -/
def validateRegistry (value : JSValue) : Except NpmError URLModel :=
  match value with
  | .string s =>
    match parseAbsoluteURL s with
    | some u => .ok u
    | none => .error (.invalidRegistryUrl value)
  | _ => .error (.invalidRegistryUrl value)

/-- `validateTag`: for a string, trim it and percent-encode the trimmed
form; accept iff the trimmed form is non-empty and equal to its encoding,
returning the ORIGINAL untrimmed string; otherwise `InvalidTagError`
carrying the raw value. -/
def validateTag (value : JSValue) : Except NpmError String :=
  match value with
  | .string s =>
    let trimmedValue := jsTrim s
    let encodedValue := encodeURIComponent trimmedValue
    if trimmedValue.length > 0 ∧ trimmedValue = encodedValue then .ok s
    else .error (.invalidTag value)
  | _ => .error (.invalidTag value)

/-- `validateAccess`: accepts `undefined`, `"public"` or `"restricted"`,
returned unchanged; otherwise `InvalidAccessError` carrying the raw
value. -/
def validateAccess (value : JSValue) : Except NpmError JSValue :=
  if value = .undefined ∨ value = .string ACCESS_PUBLIC ∨
      value = .string ACCESS_RESTRICTED then
    .ok value
  else
    .error (.invalidAccess value)

/-- `validateStrategy`: accepts `"all"` or `"upgrade"`, returned unchanged;
otherwise `InvalidStrategyError` carrying the raw value. -/
def validateStrategy (value : JSValue) : Except NpmError String :=
  if value = .string STRATEGY_ALL then .ok STRATEGY_ALL
  else if value = .string STRATEGY_UPGRADE then .ok STRATEGY_UPGRADE
  else .error (.invalidStrategy value)

/-- The `Boolean` coercion used as the validator for the boolean fields:
total, never throws. -/
def booleanV (value : JSValue) : Except NpmError Bool :=
  .ok (toBoolean value)

/-- The optional `publishConfig` sub-record of a package manifest, with
optional `tag`, `registry`, `access` and `provenance` fields (`none` models
an absent field, read back as `undefined` through optional chaining). -/
structure PublishConfig where
  tag : Option String
  registry : Option String
  access : Option String
  provenance : Option Bool
deriving Repr, DecidableEq

/-- `PackageManifest` (from `read-manifest.ts`): optional `scope` and
optional `publishConfig`. -/
structure PackageManifest where
  scope : Option String
  publishConfig : Option PublishConfig
deriving Repr, DecidableEq

/-- The raw user `Options` record. Every field is untyped until validated
(`unknown` at runtime), so each is a `JSValue`; an unsupplied field is
`JSValue.undefined`. -/
structure Options where
  token : JSValue
  registry : JSValue
  tag : JSValue
  access : JSValue
  provenance : JSValue
  ignoreScripts : JSValue
  dryRun : JSValue
  strategy : JSValue
  logger : JSValue
  temporaryDirectory : JSValue
  forceCommandLineOptions : JSValue
deriving Repr, DecidableEq

/-- `ConfigValue<T>`: a validated value paired with whether it fell back to
a default. -/
structure ConfigValue (α : Type) where
  value : α
  isDefault : Bool
deriving Repr, DecidableEq

/-- The four resolved defaults computed at the top of `normalizeOptions`
(`defaultTag`, `defaultRegistry`, `defaultAccess`, `defaultProvenance`).
`access` is a `JSValue` because its default is `Access | undefined`. -/
structure Defaults where
  tag : String
  registry : String
  access : JSValue
  provenance : Bool
deriving Repr, DecidableEq

/-- `NormalizedOptions`: the output record of `normalizeOptions`. -/
structure NormalizedOptions where
  registry : URLModel
  token : String
  tag : ConfigValue String
  access : ConfigValue JSValue
  provenance : ConfigValue Bool
  ignoreScripts : ConfigValue Bool
  dryRun : ConfigValue Bool
  strategy : ConfigValue String
  logger : JSValue
  temporaryDirectory : JSValue
deriving Repr, DecidableEq

/-- Optional chaining `manifest.publishConfig?.field`: `undefined` when the
`publishConfig` record or the field is absent. -/
def chainString (pc : Option PublishConfig) (f : PublishConfig → Option String) :
    JSValue :=
  match pc with
  | none => .undefined
  | some c =>
    match f c with
    | none => .undefined
    | some s => .string s

/-- Optional chaining for the boolean `provenance` field. -/
def chainBool (pc : Option PublishConfig) (f : PublishConfig → Option Bool) :
    JSValue :=
  match pc with
  | none => .undefined
  | some c =>
    match f c with
    | none => .undefined
    | some b => .boolean b

/-- `x ?? d` where the default is a plain string (the resolved default is a
string in the source). -/
def nullishString (x : JSValue) (d : String) : String :=
  match x with
  | .string s => s
  | _ => d

/-- `x ?? d` where the default is a plain boolean. -/
def nullishBool (x : JSValue) (d : Bool) : Bool :=
  match x with
  | .boolean b => b
  | _ => d

/-- The default-resolution prefix of `normalizeOptions`: start from the
hard-coded fallbacks (`TAG_LATEST`, `REGISTRY_NPM`, `public` when the
manifest has no scope else `undefined`, and `false`), then, only when
`forceCommandLineOptions` is `undefined`/`null` or falsy, override each
with the corresponding `manifest.publishConfig` field when present. -/
def resolvedDefaults (manifest : PackageManifest) (options : Options) :
    Defaults :=
  let defaultTag := TAG_LATEST
  let defaultRegistry := REGISTRY_NPM
  let defaultAccess : JSValue :=
    if manifest.scope = none then .string ACCESS_PUBLIC else .undefined
  let defaultProvenance := false
  if looseEqUndefined options.forceCommandLineOptions ∨
      ¬ toBoolean options.forceCommandLineOptions then
    { tag := nullishString (chainString manifest.publishConfig (·.tag))
        defaultTag
      registry := nullishString
        (chainString manifest.publishConfig (·.registry)) defaultRegistry
      access := nullish (chainString manifest.publishConfig (·.access))
        defaultAccess
      provenance := nullishBool
        (chainBool manifest.publishConfig (·.provenance)) defaultProvenance }
  else
    { tag := defaultTag, registry := defaultRegistry
      access := defaultAccess, provenance := defaultProvenance }

/-- `setValue(value, defaultValue, validate)`: validate `value ??
defaultValue` and pair the result with `isDefault = (value ===
undefined)`. -/
def setValue (value defaultValue : JSValue)
    (validate : JSValue → Except NpmError α) :
    Except NpmError (ConfigValue α) :=
  (validate (nullish value defaultValue)).map fun v =>
    ⟨v, value = JSValue.undefined⟩

/-- `normalizeOptions(manifest, options)`. The ambient `os.tmpdir()` read is
injected as the `tmpdir` argument. Fields are computed in the evaluation
order of the source's return object literal (token, registry, tag, access,
provenance, ignoreScripts, dryRun, strategy), short-circuiting on the first
validation error. -/
def normalizeOptions (tmpdir : String) (manifest : PackageManifest)
    (options : Options) : Except NpmError NormalizedOptions :=
  let d := resolvedDefaults manifest options
  Except.bind (validateToken options.token) fun token =>
  Except.bind (validateRegistry (nullish options.registry
      (.string d.registry))) fun registry =>
  Except.bind (setValue options.tag (.string d.tag) validateTag) fun tag =>
  Except.bind (setValue options.access d.access validateAccess) fun access =>
  Except.bind (setValue options.provenance (.boolean d.provenance) booleanV)
    fun provenance =>
  Except.bind (setValue options.ignoreScripts (.boolean true) booleanV)
    fun ignoreScripts =>
  Except.bind (setValue options.dryRun (.boolean false) booleanV)
    fun dryRun =>
  Except.bind (setValue options.strategy (.string STRATEGY_ALL)
      validateStrategy) fun strategy =>
  Except.ok
    { registry, token, tag, access, provenance, ignoreScripts, dryRun,
      strategy, logger := options.logger,
      temporaryDirectory :=
        nullish options.temporaryDirectory (.string tmpdir) }

/-- An `Options` record with every field unsupplied (`undefined`). -/
def emptyOptions : Options :=
  { token := .undefined, registry := .undefined, tag := .undefined
    access := .undefined, provenance := .undefined
    ignoreScripts := .undefined, dryRun := .undefined
    strategy := .undefined, logger := .undefined
    temporaryDirectory := .undefined, forceCommandLineOptions := .undefined }

/-- A manifest with no scope and no publishConfig. -/
def emptyManifest : PackageManifest :=
  { scope := none, publishConfig := none }

/-- A manifest carrying only the scope `@acme`. -/
def acmeManifest : PackageManifest :=
  { scope := some "@acme", publishConfig := none }

/-- Options `{token: "abc"}`. -/
def tokenOnlyOptions : Options :=
  { emptyOptions with token := .string "abc" }

/-- Options `{token: "abc", tag: "beta "}` (note the trailing space). -/
def betaSpaceOptions : Options :=
  { emptyOptions with
      token := .string "abc"
      tag := .string "beta " }

/-- Options `{token: "abc", forceCommandLineOptions: true}`. -/
def forcedOptions : Options :=
  { emptyOptions with
      token := .string "abc"
      forceCommandLineOptions := .boolean true }

/-- Options with a valid token and every default-tracked field set to
`null`. -/
def allNullOptions : Options :=
  { emptyOptions with
      token := .string "abc"
      tag := .null
      access := .null
      provenance := .null
      ignoreScripts := .null
      dryRun := .null
      strategy := .null }

section Lemmas

/-- `Except.bind` on an error short-circuits. -/
theorem except_bind_error {ε α β : Type} (e : ε)
    (f : α → Except ε β) : Except.bind (Except.error e) f = Except.error e :=
  rfl

/-- A successful `validateToken` forces the input shape. -/
theorem validateToken_ok_iff (x : JSValue) (s : String) :
    validateToken x = Except.ok s ↔ x = JSValue.string s ∧ s ≠ "" := by
  constructor
  · intro h
    cases x with
    | string t =>
      by_cases ht : t.length > 0
      · simp [validateToken, ht] at h
        subst h
        refine ⟨rfl, ?_⟩
        intro hs
        subst hs
        simp at ht
      · simp [validateToken, ht] at h
    | undefined => simp [validateToken] at h
    | null => simp [validateToken] at h
    | boolean b => simp [validateToken] at h
    | number n => simp [validateToken] at h
  · rintro ⟨rfl, hs⟩
    have hlen : s.length > 0 := by
      cases s with
      | mk data =>
        cases data with
        | nil => simp at hs
        | cons c cs => simp [String.length]
    simp [validateToken, hlen]

/-- When `validateToken` fails, the error is `InvalidTokenError`. -/
theorem validateToken_error (x : JSValue)
    (h : ∀ s, validateToken x ≠ Except.ok s) :
    validateToken x = Except.error NpmError.invalidToken := by
  cases x with
  | string t =>
    by_cases ht : t.length > 0
    · exact absurd (by simp [validateToken, ht]) (h t)
    · simp [validateToken, ht]
  | undefined => rfl
  | null => rfl
  | boolean b => rfl
  | number n => rfl

/-- A non-empty string has positive length. -/
theorem string_ne_empty_length (s : String) (h : s ≠ "") : s.length > 0 := by
  cases s with
  | mk data =>
    cases data with
    | nil => exact absurd (by decide) h
    | cons c cs => simp [String.length]

/-- A string of positive length is non-empty. -/
theorem string_length_pos_ne_empty (s : String) (h : s.length > 0) :
    s ≠ "" := by
  intro hz
  rw [hz] at h
  exact absurd h (by decide)

/-- Unfolding of `validateTag` on a string input. -/
theorem validateTag_string (t : String) :
    validateTag (JSValue.string t) =
      if (jsTrim t).length > 0 ∧ jsTrim t = encodeURIComponent (jsTrim t)
      then Except.ok t
      else Except.error (NpmError.invalidTag (JSValue.string t)) := rfl

/-- A successful `validateTag` returns the original string, which must pass
the trim/encode check. -/
theorem validateTag_ok_iff (x : JSValue) (s : String) :
    validateTag x = Except.ok s ↔
      x = JSValue.string s ∧ jsTrim s ≠ "" ∧
        jsTrim s = encodeURIComponent (jsTrim s) := by
  constructor
  · intro h
    cases x with
    | string t =>
      rw [validateTag_string] at h
      by_cases hc : (jsTrim t).length > 0 ∧ jsTrim t = encodeURIComponent (jsTrim t)
      · rw [if_pos hc] at h
        injection h with h'
        subst h'
        exact ⟨rfl, string_length_pos_ne_empty _ hc.1, hc.2⟩
      · rw [if_neg hc] at h
        exact Except.noConfusion h
    | undefined => exact Except.noConfusion h
    | null => exact Except.noConfusion h
    | boolean b => exact Except.noConfusion h
    | number n => exact Except.noConfusion h
  · rintro ⟨rfl, hne, henc⟩
    rw [validateTag_string,
      if_pos ⟨string_ne_empty_length _ hne, henc⟩]

/-- When `validateTag` fails, the error is `InvalidTagError` carrying the
raw value. -/
theorem validateTag_error (x : JSValue)
    (h : ∀ s, validateTag x ≠ Except.ok s) :
    validateTag x = Except.error (NpmError.invalidTag x) := by
  cases x with
  | string t =>
    by_cases hc : (jsTrim t).length > 0 ∧ jsTrim t = encodeURIComponent (jsTrim t)
    · exact absurd ((validateTag_ok_iff (JSValue.string t) t).mpr
        ⟨rfl, string_length_pos_ne_empty _ hc.1, hc.2⟩) (h t)
    · rw [validateTag_string, if_neg hc]
  | undefined => rfl
  | null => rfl
  | boolean b => rfl
  | number n => rfl

end Lemmas

/-- C3: the tag validator succeeds exactly when the input is a string whose
trimmed form is non-empty and equal to its own percent-encoding; on success
it returns the original untrimmed string, otherwise it signals
`InvalidTagError` carrying the raw input. -/
theorem tag_validator_spec (x : JSValue) (s : String) :
    (validateTag x = Except.ok s ↔
      x = JSValue.string s ∧ jsTrim s ≠ "" ∧
        jsTrim s = encodeURIComponent (jsTrim s)) ∧
    ((∀ t, validateTag x ≠ Except.ok t) →
      validateTag x = Except.error (NpmError.invalidTag x)) :=
  ⟨validateTag_ok_iff x s, validateTag_error x⟩

/-- Witness for C3 at concrete inputs: `"beta"` is accepted and returned
unchanged, and the number `0` is rejected with `InvalidTagError` carrying
`0`. -/
theorem tag_validator_spec_witness :
    validateTag (JSValue.string "beta") = Except.ok "beta" ∧
    validateTag (JSValue.number 0) =
      Except.error (NpmError.invalidTag (JSValue.number 0)) := by
  constructor
  · exact (tag_validator_spec (JSValue.string "beta") "beta").1.mpr
      ⟨rfl, by decide, by decide⟩
  · exact (tag_validator_spec (JSValue.number 0) "x").2
      (fun t h => by simp [validateTag] at h)

/-- C7: the token validator succeeds exactly on non-empty strings, returning
them unchanged; for the empty string and every non-string input it signals
`InvalidTokenError`. -/
theorem token_validator_spec (x : JSValue) (s : String) :
    (validateToken x = Except.ok s ↔ x = JSValue.string s ∧ s ≠ "") ∧
    ((∀ t, validateToken x ≠ Except.ok t) →
      validateToken x = Except.error NpmError.invalidToken) :=
  ⟨validateToken_ok_iff x s, validateToken_error x⟩

/-- Witness for C7 at concrete inputs: `"abc"` is returned unchanged and the
empty string is rejected with `InvalidTokenError`. -/
theorem token_validator_spec_witness :
    validateToken (JSValue.string "abc") = Except.ok "abc" ∧
    validateToken (JSValue.string "") =
      Except.error NpmError.invalidToken := by
  constructor
  · exact (token_validator_spec (JSValue.string "abc") "abc").1.mpr
      ⟨rfl, by decide⟩
  · exact (token_validator_spec (JSValue.string "") "x").2
      (fun t h => by simp [validateToken] at h)

/-- C8: tag validation is idempotent on valid inputs — whenever the
validator accepts `x` and returns `y`, running it again on that output
succeeds with the same string, so `validateTag (validateTag x) = validateTag
x` on the valid domain. -/
theorem tag_validation_idempotent (x : JSValue) (y : String)
    (h : validateTag x = Except.ok y) :
    validateTag (JSValue.string y) = Except.ok y := by
  obtain ⟨hx, hne, henc⟩ := (validateTag_ok_iff x y).mp h
  exact (validateTag_ok_iff (JSValue.string y) y).mpr ⟨rfl, hne, henc⟩

/-- Witness for C8 at the concrete valid tag `"latest"`. -/
theorem tag_validation_idempotent_witness :
    validateTag (JSValue.string "latest") = Except.ok "latest" :=
  tag_validation_idempotent (JSValue.string "latest") "latest" rfl

section Inversion

/-- Whether an `Except` computation succeeded. -/
def exceptIsOk : Except ε α → Bool
  | .ok _ => true
  | .error _ => false

/-- `Except.bind` succeeds exactly when both stages succeed. -/
theorem bind_ok {ε α β : Type} (x : Except ε α) (f : α → Except ε β)
    (b : β) :
    Except.bind x f = Except.ok b ↔
      ∃ a, x = Except.ok a ∧ f a = Except.ok b := by
  cases x with
  | ok a => simp [Except.bind]
  | error e => simp [Except.bind]

/-- Components of a successful `setValue`: the validator ran on
`value ?? default` and `isDefault` records whether `value` was
`undefined`. -/
theorem setValue_ok_parts {α : Type} {v d : JSValue}
    {f : JSValue → Except NpmError α} {c : ConfigValue α}
    (h : setValue v d f = Except.ok c) :
    f (nullish v d) = Except.ok c.value ∧
      c.isDefault = decide (v = JSValue.undefined) := by
  unfold setValue at h
  cases hf : f (nullish v d) with
  | ok a =>
    rw [hf] at h
    simp only [Except.map] at h
    cases h
    exact ⟨rfl, rfl⟩
  | error e =>
    rw [hf] at h
    simp only [Except.map] at h
    exact Except.noConfusion h

/-- A successful `setValue` marks the result as default iff the raw value
was `undefined`. -/
theorem setValue_isDefault {α : Type} {v d : JSValue}
    {f : JSValue → Except NpmError α} {c : ConfigValue α}
    (h : setValue v d f = Except.ok c) :
    (c.isDefault = true ↔ v = JSValue.undefined) := by
  rw [(setValue_ok_parts h).2]
  simp

/-- Inversion of a successful `normalizeOptions`: every field validator
succeeded on its `raw ?? default` input and produced the corresponding
component of the result. -/
theorem normalizeOptions_ok_parts (tmpdir : String) (m : PackageManifest)
    (o : Options) (r : NormalizedOptions)
    (h : normalizeOptions tmpdir m o = Except.ok r) :
    validateToken o.token = Except.ok r.token ∧
    validateRegistry (nullish o.registry
        (JSValue.string (resolvedDefaults m o).registry)) =
      Except.ok r.registry ∧
    setValue o.tag (JSValue.string (resolvedDefaults m o).tag) validateTag =
      Except.ok r.tag ∧
    setValue o.access (resolvedDefaults m o).access validateAccess =
      Except.ok r.access ∧
    setValue o.provenance (JSValue.boolean (resolvedDefaults m o).provenance)
        booleanV = Except.ok r.provenance ∧
    setValue o.ignoreScripts (JSValue.boolean true) booleanV =
      Except.ok r.ignoreScripts ∧
    setValue o.dryRun (JSValue.boolean false) booleanV =
      Except.ok r.dryRun ∧
    setValue o.strategy (JSValue.string STRATEGY_ALL) validateStrategy =
      Except.ok r.strategy ∧
    r.logger = o.logger ∧
    r.temporaryDirectory =
      nullish o.temporaryDirectory (JSValue.string tmpdir) := by
  simp only [normalizeOptions, bind_ok] at h
  obtain ⟨token, h1, registry, h2, tag, h3, access, h4, provenance, h5,
    ignoreScripts, h6, dryRun, h7, strategy, h8, hr⟩ := h
  injection hr with hr'
  subst hr'
  exact ⟨h1, h2, h3, h4, h5, h6, h7, h8, rfl, rfl⟩

/-- When the token validator fails, `normalizeOptions` short-circuits with
that failure. -/
theorem normalizeOptions_token_error (tmpdir : String)
    (m : PackageManifest) (o : Options)
    (h : validateToken o.token = Except.error NpmError.invalidToken) :
    normalizeOptions tmpdir m o = Except.error NpmError.invalidToken := by
  simp [normalizeOptions, h, Except.bind]

end Inversion

/-- The normalization result for `{token: "abc"}` against the empty
manifest. -/
def normalizedTokenOnly : NormalizedOptions :=
  { registry := ⟨"https://registry.npmjs.org/"⟩
    token := "abc"
    tag := ⟨"latest", true⟩
    access := ⟨.string "public", true⟩
    provenance := ⟨false, true⟩
    ignoreScripts := ⟨true, true⟩
    dryRun := ⟨false, true⟩
    strategy := ⟨"all", true⟩
    logger := .undefined
    temporaryDirectory := .string "/tmp" }

/-- The normalization result for `{token: "abc", tag: "beta "}` against the
empty manifest. -/
def betaSpaceResult : NormalizedOptions :=
  { normalizedTokenOnly with tag := ⟨"beta ", false⟩ }

/-- The normalization result for `allNullOptions` against the empty
manifest: every default-tracked field carries the default value but is
marked non-default. -/
def allNullResult : NormalizedOptions :=
  { normalizedTokenOnly with
      tag := ⟨"latest", false⟩
      access := ⟨.string "public", false⟩
      provenance := ⟨false, false⟩
      ignoreScripts := ⟨true, false⟩
      dryRun := ⟨false, false⟩
      strategy := ⟨"all", false⟩ }

/-- Counterexample to C1: with `forceCommandLineOptions: true` and no
user-supplied access, the resulting access still depends on the manifest —
`public` for a scope-less manifest, `undefined` for scope `@acme` — because
`defaultAccess` is computed from `manifest.scope` before the
`forceCommandLineOptions` check. -/
theorem forced_access_scope_cex :
    (normalizeOptions "/tmp" emptyManifest forcedOptions).toOption.map
        (fun r => r.access) =
      some ⟨JSValue.string "public", true⟩ ∧
    (normalizeOptions "/tmp" acmeManifest forcedOptions).toOption.map
        (fun r => r.access) =
      some ⟨JSValue.undefined, true⟩ :=
  ⟨rfl, rfl⟩

/-- C1 (amended): when `forceCommandLineOptions` is truthy, the tag,
registry and provenance defaults are the hard-coded fallbacks and
`manifest.publishConfig` is ignored entirely, but the access default still
depends on `manifest.scope`: `public` when the scope is absent, `undefined`
otherwise. -/
theorem forced_defaults (m : PackageManifest) (o : Options)
    (h : toBoolean o.forceCommandLineOptions = true) :
    resolvedDefaults m o =
      { tag := TAG_LATEST
        registry := REGISTRY_NPM
        access := if m.scope = none then JSValue.string ACCESS_PUBLIC
          else JSValue.undefined
        provenance := false } := by
  have h1 : looseEqUndefined o.forceCommandLineOptions = false := by
    cases hf : o.forceCommandLineOptions with
    | undefined => rw [hf] at h; exact absurd h (by decide)
    | null => rw [hf] at h; exact absurd h (by decide)
    | boolean b => rfl
    | string s => rfl
    | number n => rfl
  unfold resolvedDefaults
  rw [if_neg]
  intro hcond
  rcases hcond with hu | hnt
  · rw [h1] at hu
    exact Bool.noConfusion hu
  · exact hnt h

/-- Witness for C1 (amended) at the scoped manifest `@acme` with
`forceCommandLineOptions: true`. -/
theorem forced_defaults_witness :
    resolvedDefaults acmeManifest forcedOptions =
      { tag := TAG_LATEST
        registry := REGISTRY_NPM
        access := if acmeManifest.scope = none then
          JSValue.string ACCESS_PUBLIC else JSValue.undefined
        provenance := false } :=
  forced_defaults acmeManifest forcedOptions (by decide)

/-- Counterexample to C2: for options `{token: "abc", tag: "beta "}` the
normalization succeeds (`toOption` is `some`), so no `InvalidTagError` is
thrown — the validator trims `"beta "` to `"beta"` before the trim/encode
equality check, which therefore passes. -/
theorem beta_space_tag_cex :
    (normalizeOptions "/tmp" emptyManifest betaSpaceOptions).toOption.map
        (fun r => r.tag) =
      some ⟨"beta ", false⟩ := rfl

/-- C2 (amended): for options `{token: "abc", tag: "beta "}`,
`normalizeOptions` succeeds — the trailing space is removed before the
trim/encode equality check — and the tag config keeps the original
untrimmed `"beta "` with `isDefault` false. -/
theorem beta_space_normalizes :
    normalizeOptions "/tmp" emptyManifest betaSpaceOptions =
      Except.ok betaSpaceResult := rfl

/-- C4: for every successful normalization, each default-tracked field is
marked default exactly when the corresponding raw option was literally
`undefined` — a supplied value equal to the default is still
non-default. -/
theorem isDefault_iff_undefined (tmpdir : String) (m : PackageManifest)
    (o : Options) (r : NormalizedOptions)
    (h : normalizeOptions tmpdir m o = Except.ok r) :
    (r.tag.isDefault = true ↔ o.tag = JSValue.undefined) ∧
    (r.access.isDefault = true ↔ o.access = JSValue.undefined) ∧
    (r.provenance.isDefault = true ↔ o.provenance = JSValue.undefined) ∧
    (r.ignoreScripts.isDefault = true ↔
      o.ignoreScripts = JSValue.undefined) ∧
    (r.dryRun.isDefault = true ↔ o.dryRun = JSValue.undefined) ∧
    (r.strategy.isDefault = true ↔ o.strategy = JSValue.undefined) := by
  obtain ⟨-, -, h3, h4, h5, h6, h7, h8, -, -⟩ :=
    normalizeOptions_ok_parts tmpdir m o r h
  exact ⟨setValue_isDefault h3, setValue_isDefault h4,
    setValue_isDefault h5, setValue_isDefault h6, setValue_isDefault h7,
    setValue_isDefault h8⟩

/-- Witness for C4 at `{token: "abc"}` against the empty manifest. -/
theorem isDefault_iff_undefined_witness :
    (normalizedTokenOnly.tag.isDefault = true ↔
      tokenOnlyOptions.tag = JSValue.undefined) ∧
    (normalizedTokenOnly.access.isDefault = true ↔
      tokenOnlyOptions.access = JSValue.undefined) ∧
    (normalizedTokenOnly.provenance.isDefault = true ↔
      tokenOnlyOptions.provenance = JSValue.undefined) ∧
    (normalizedTokenOnly.ignoreScripts.isDefault = true ↔
      tokenOnlyOptions.ignoreScripts = JSValue.undefined) ∧
    (normalizedTokenOnly.dryRun.isDefault = true ↔
      tokenOnlyOptions.dryRun = JSValue.undefined) ∧
    (normalizedTokenOnly.strategy.isDefault = true ↔
      tokenOnlyOptions.strategy = JSValue.undefined) :=
  isDefault_iff_undefined "/tmp" emptyManifest tokenOnlyOptions
    normalizedTokenOnly rfl

/-- C5: validation failures surface in field-declaration order: when the
raw token and the raw tag are both invalid, normalization reports
`InvalidTokenError` (the token is checked first). -/
theorem token_error_first (tmpdir : String) (m : PackageManifest)
    (o : Options)
    (htok : exceptIsOk (validateToken o.token) = false)
    (_htag : exceptIsOk (validateTag o.tag) = false) :
    normalizeOptions tmpdir m o = Except.error NpmError.invalidToken := by
  apply normalizeOptions_token_error
  apply validateToken_error
  intro s hs
  rw [hs] at htok
  exact Bool.noConfusion htok

/-- Witness for C5: token `undefined` and tag `""` are both invalid, and the
error is `InvalidTokenError`. -/
theorem token_error_first_witness :
    normalizeOptions "/tmp" emptyManifest
        { emptyOptions with tag := JSValue.string "" } =
      Except.error NpmError.invalidToken :=
  token_error_first "/tmp" emptyManifest
    { emptyOptions with tag := JSValue.string "" } (by decide) rfl

/-- C6: with `forceCommandLineOptions` unset and no user access, the access
config is scope-determined: manifest `{scope: "@acme"}` with options
`{token: "abc"}` yields value `undefined` with `isDefault` true, while the
scope-less manifest yields value `"public"` with `isDefault` true. -/
theorem scope_access_scenarios :
    (normalizeOptions "/tmp" acmeManifest tokenOnlyOptions).toOption.map
        (fun r => r.access) =
      some ⟨JSValue.undefined, true⟩ ∧
    (normalizeOptions "/tmp" emptyManifest tokenOnlyOptions).toOption.map
        (fun r => r.access) =
      some ⟨JSValue.string "public", true⟩ :=
  ⟨rfl, rfl⟩

/-- C9: a `null` raw value falls back to the resolved default for the value
(the validator runs on the default) but counts as supplied for
default-tracking, so `isDefault` is false. -/
theorem null_counts_supplied (tmpdir : String) (m : PackageManifest)
    (o : Options) (r : NormalizedOptions)
    (h : normalizeOptions tmpdir m o = Except.ok r) :
    (o.tag = JSValue.null → r.tag.isDefault = false ∧
      validateTag (JSValue.string (resolvedDefaults m o).tag) =
        Except.ok r.tag.value) ∧
    (o.access = JSValue.null → r.access.isDefault = false ∧
      validateAccess (resolvedDefaults m o).access =
        Except.ok r.access.value) ∧
    (o.provenance = JSValue.null → r.provenance =
      ⟨(resolvedDefaults m o).provenance, false⟩) ∧
    (o.ignoreScripts = JSValue.null → r.ignoreScripts = ⟨true, false⟩) ∧
    (o.dryRun = JSValue.null → r.dryRun = ⟨false, false⟩) ∧
    (o.strategy = JSValue.null → r.strategy = ⟨STRATEGY_ALL, false⟩) := by
  obtain ⟨-, -, h3, h4, h5, h6, h7, h8, -, -⟩ :=
    normalizeOptions_ok_parts tmpdir m o r h
  refine ⟨fun hn => ?_, fun hn => ?_, fun hn => ?_, fun hn => ?_,
    fun hn => ?_, fun hn => ?_⟩
  · rw [hn] at h3
    obtain ⟨hv, hd⟩ := setValue_ok_parts h3
    exact ⟨by rw [hd]; decide, hv⟩
  · rw [hn] at h4
    obtain ⟨hv, hd⟩ := setValue_ok_parts h4
    exact ⟨by rw [hd]; decide, hv⟩
  · rw [hn] at h5
    obtain ⟨hv, hd⟩ := setValue_ok_parts h5
    injection hv with hv'
    cases hr : r.provenance with
    | mk v i =>
      rw [hr] at hv' hd
      simp only at hv' hd
      rw [← hv', hd]
      rfl
  · rw [hn] at h6
    obtain ⟨hv, hd⟩ := setValue_ok_parts h6
    injection hv with hv'
    cases hr : r.ignoreScripts with
    | mk v i =>
      rw [hr] at hv' hd
      simp only at hv' hd
      rw [← hv', hd]
      rfl
  · rw [hn] at h7
    obtain ⟨hv, hd⟩ := setValue_ok_parts h7
    injection hv with hv'
    cases hr : r.dryRun with
    | mk v i =>
      rw [hr] at hv' hd
      simp only at hv' hd
      rw [← hv', hd]
      rfl
  · rw [hn] at h8
    obtain ⟨hv, hd⟩ := setValue_ok_parts h8
    injection hv with hv'
    cases hr : r.strategy with
    | mk v i =>
      rw [hr] at hv' hd
      simp only at hv' hd
      rw [← hv', hd]
      rfl

/-- Witness for C9: all default-tracked fields `null`, token `"abc"`, empty
manifest. -/
theorem null_counts_supplied_witness :
    (allNullResult.tag.isDefault = false ∧
      validateTag (JSValue.string
          (resolvedDefaults emptyManifest allNullOptions).tag) =
        Except.ok allNullResult.tag.value) ∧
    (allNullResult.access.isDefault = false ∧
      validateAccess (resolvedDefaults emptyManifest allNullOptions).access =
        Except.ok allNullResult.access.value) ∧
    allNullResult.provenance =
      ⟨(resolvedDefaults emptyManifest allNullOptions).provenance, false⟩ ∧
    allNullResult.ignoreScripts = ⟨true, false⟩ ∧
    allNullResult.dryRun = ⟨false, false⟩ ∧
    allNullResult.strategy = ⟨STRATEGY_ALL, false⟩ := by
  have h := null_counts_supplied "/tmp" emptyManifest allNullOptions
    allNullResult rfl
  exact ⟨h.1 rfl, h.2.1 rfl, h.2.2.1 rfl, h.2.2.2.1 rfl, h.2.2.2.2.1 rfl,
    h.2.2.2.2.2 rfl⟩

/-- C10: when unsupplied, `ignoreScripts` defaults to `true`, `dryRun` to
`false` and `strategy` to `STRATEGY_ALL` ("all"), each marked as default;
these fallbacks are fixed literals, holding for every manifest. -/
theorem fixed_fallbacks (tmpdir : String) (m : PackageManifest)
    (o : Options) (r : NormalizedOptions)
    (h : normalizeOptions tmpdir m o = Except.ok r) :
    (o.ignoreScripts = JSValue.undefined → r.ignoreScripts = ⟨true, true⟩) ∧
    (o.dryRun = JSValue.undefined → r.dryRun = ⟨false, true⟩) ∧
    (o.strategy = JSValue.undefined → r.strategy = ⟨STRATEGY_ALL, true⟩) := by
  obtain ⟨-, -, -, -, -, h6, h7, h8, -, -⟩ :=
    normalizeOptions_ok_parts tmpdir m o r h
  refine ⟨fun hn => ?_, fun hn => ?_, fun hn => ?_⟩
  · rw [hn] at h6
    obtain ⟨hv, hd⟩ := setValue_ok_parts h6
    injection hv with hv'
    cases hr : r.ignoreScripts with
    | mk v i =>
      rw [hr] at hv' hd
      simp only at hv' hd
      rw [← hv', hd]
      rfl
  · rw [hn] at h7
    obtain ⟨hv, hd⟩ := setValue_ok_parts h7
    injection hv with hv'
    cases hr : r.dryRun with
    | mk v i =>
      rw [hr] at hv' hd
      simp only at hv' hd
      rw [← hv', hd]
      rfl
  · rw [hn] at h8
    obtain ⟨hv, hd⟩ := setValue_ok_parts h8
    injection hv with hv'
    cases hr : r.strategy with
    | mk v i =>
      rw [hr] at hv' hd
      simp only at hv' hd
      rw [← hv', hd]
      rfl

/-- Witness for C10 at `{token: "abc"}` against the empty manifest. -/
theorem fixed_fallbacks_witness :
    normalizedTokenOnly.ignoreScripts = ⟨true, true⟩ ∧
    normalizedTokenOnly.dryRun = ⟨false, true⟩ ∧
    normalizedTokenOnly.strategy = ⟨STRATEGY_ALL, true⟩ := by
  have h := fixed_fallbacks "/tmp" emptyManifest tokenOnlyOptions
    normalizedTokenOnly rfl
  exact ⟨h.1 rfl, h.2.1 rfl, h.2.2 rfl⟩

end NpmPublish
